import Mathlib

/-!
Verification of the `tcp4to6` relay: a shallow embedding of its error
classification, error aggregation, accept loop, per-connection handler and
stream-bridging paths, with theorems checking the specification's claims.

The program is modelled denotationally: every I/O primitive (io.Copy, Close,
Accept, DialContext) is represented by the outcome it produced, and each
function of the source is translated into a Lean function from those outcomes
to its observable result (returned error, logged errors, dispatched tasks).
-/

set_option autoImplicit false

namespace Tcp4to6

/-- Go error values as they occur in this program: the stdlib sentinels the
code compares against (`os.ErrClosed`, `net.ErrClosed`), the package's own
sentinels (`errEnvMissing`, `errUnexpectedSocketAmount`), arbitrary other
errors, errors produced by `fmt.Errorf` with `%w` (which wrap an inner error),
and errors produced by `fmt.Errorf` over a slice of errors (which embed them
all in the message without wrapping). -/
inductive GoError where
  | osErrClosed
  | netErrClosed
  | envMissing
  | unexpectedSocketAmount
  | other (msg : String)
  | wrapped (msg : String) (inner : GoError)
  | multi (msg : String) (errs : List GoError)

mutual

/-- Structural equality of Go error values (the identity comparison
`errors.Is` starts from). -/
def GoError.beq : GoError → GoError → Bool
  | .osErrClosed, .osErrClosed => true
  | .netErrClosed, .netErrClosed => true
  | .envMissing, .envMissing => true
  | .unexpectedSocketAmount, .unexpectedSocketAmount => true
  | .other m, .other n => m == n
  | .wrapped m e, .wrapped n f => m == n && GoError.beq e f
  | .multi m es, .multi n fs => m == n && GoError.beqList es fs
  | _, _ => false

/-- Pointwise `GoError.beq` on lists. -/
def GoError.beqList : List GoError → List GoError → Bool
  | [], [] => true
  | e :: es, f :: fs => GoError.beq e f && GoError.beqList es fs
  | _, _ => false

end

instance : BEq GoError := ⟨GoError.beq⟩

/-- Model of `errors.Is err target` for the sentinel comparisons this program makes:
an error matches the target if it is the target or wraps (transitively) the
target. `fmt.Errorf` without `%w` (the `multi` case) does not unwrap. -/
def errorsIs (e target : GoError) : Bool :=
  e == target ||
    match e with
    | .wrapped _ inner => errorsIs inner target
    | _ => false

/-- The spec's BenignClosure class for one copy direction: the copy ended
with no error (`io.Copy` itself swallows the expected `io.EOF`) or with an
error matching `os.ErrClosed` or `net.ErrClosed`. -/
def benignCopy (copyErr : Option GoError) : Bool :=
  match copyErr with
  | none => true
  | some e => errorsIs e .osErrClosed || errorsIs e .netErrClosed

/-- Model of `tcp4to6.copyStream dst src` from the library file: runs `io.Copy` and
classifies its error. The `io.Copy` outcome is the parameter `copyErr`
(`none` means `io.Copy` returned nil, which includes the expected-EOF case
that `io.Copy` itself swallows). Returns nil for nil, `os.ErrClosed` and
`net.ErrClosed`; wraps and returns anything else. -/
def copyStream (copyErr : Option GoError) : Option GoError :=
  match copyErr with
  | none => none
  | some err =>
    if errorsIs err .osErrClosed || errorsIs err .netErrClosed then none
    else some (.wrapped "io.Copy failed" err)

/-- Model of `tcp4to6.closeAfterDone ctx closers...`: after the context is done, each
closer is closed; `closeResults` lists each `Close()` outcome in order. The
non-nil ones are collected; zero errors gives nil, one is returned directly,
several are folded into one descriptive error carrying all of them. -/
def closeAfterDone (closeResults : List (Option GoError)) : Option GoError :=
  match closeResults.filterMap id with
  | [] => none
  | [e] => some e
  | errs => some (.multi "multiple errors while closing closers" errs)

/-- The error slice `errs := group.Wait()` in `tcp4to6.BridgeStreams`:
`group.Wait()` of that rungroup version collects every non-nil task error
(not just the first), here from the two `copyStream` tasks and the
`closeAfterDone` task, in dispatch order. -/
def bridgeTaskErrs (copyAB copyBA closeA closeB : Option GoError) : List GoError :=
  [copyStream copyAB, copyStream copyBA,
   closeAfterDone [closeA, closeB]].filterMap id

/-- Model of `tcp4to6.BridgeStreams ctx a b`: spawns `copyStream a b`, `copyStream b a`
and `closeAfterDone ctx a b` in a rungroup, waits for all of them and applies
the zero/one/many switch to the collected errors. The parameters are the
`io.Copy` outcome of each direction and the `Close()` outcome of each
stream. -/
def BridgeStreams (copyAB copyBA closeA closeB : Option GoError) : Option GoError :=
  match bridgeTaskErrs copyAB copyBA closeA closeB with
  | [] => none
  | [e] => some e
  | errs => some (.multi "multiple errors while bridging streams" errs)

/-- Modelled from the spec: the structured-concurrency task group's `Wait`
used by `tcpto6.Run` and `tcpto6.bridgeStreams`, whose source (the rungroup
dependency) is not in the repository. Per the spec's ErrorSet rule it joins
every task and collects the set of task errors, returning success for zero
errors, the single error directly for one, and an aggregate holding all of
them for several. -/
def groupWait (taskResults : List (Option GoError)) : Option GoError :=
  match taskResults.filterMap id with
  | [] => none
  | [e] => some e
  | errs => some (.multi "multiple errors in group" errs)

/-- Observable behaviour of `tcpto6.bridgeStreams`: the errors it hands to
the logger and whether it reached the `panic("did not expect errors")`
branch. -/
structure BridgeLog where
  logged : List GoError
  panicked : Bool

/-- One copy task of `tcpto6.bridgeStreams`: runs `io.Copy`, logs its error
unless it is nil or matches `net.ErrClosed`, and returns nil in every case.
Result is (returned task error, logged errors). -/
def copyTaskTop (copyErr : Option GoError) : Option GoError × List GoError :=
  match copyErr with
  | some err => if !errorsIs err .netErrClosed then (none, [err]) else (none, [])
  | none => (none, [])

/-- One close task of `tcpto6.bridgeStreams`: waits for the context, closes
its stream, logs the close error unless it is nil or matches `net.ErrClosed`,
and returns nil in every case. -/
def closeTaskTop (closeErr : Option GoError) : Option GoError × List GoError :=
  match closeErr with
  | some err => if !errorsIs err .netErrClosed then (none, [err]) else (none, [])
  | none => (none, [])

/-- The task results `tcpto6.bridgeStreams`'s group collects: both copy
tasks and both close tasks, given each underlying I/O outcome. -/
def bridgeStreamsTaskResults (copyFT copyTF closeTo closeFrom : Option GoError) :
    List (Option GoError) :=
  [(copyTaskTop copyFT).1, (copyTaskTop copyTF).1,
   (closeTaskTop closeTo).1, (closeTaskTop closeFrom).1]

/-- Model of `tcpto6.bridgeStreams ctx log to from`: spawns the two copy tasks and the
two close-on-done tasks in a rungroup, joins them, and panics if `Wait`
reports any error. Parameters are the `io.Copy` outcome of each direction
(from→to, then to→from) and the `Close()` outcome of each stream. -/
def bridgeStreams (copyFT copyTF closeTo closeFrom : Option GoError) : BridgeLog :=
  let t₁ := copyTaskTop copyFT
  let t₂ := copyTaskTop copyTF
  let t₃ := closeTaskTop closeTo
  let t₄ := closeTaskTop closeFrom
  { logged := t₁.2 ++ t₂.2 ++ t₃.2 ++ t₄.2
    panicked := (groupWait [t₁.1, t₂.1, t₃.1, t₄.1]).isSome }

/-- The network string `handleConn` passes to `net.Dialer.DialContext`. -/
def tcp6Network : String := "tcp6"

/-- Observable behaviour of `tcpto6.handleConn` on one accepted
connection. -/
structure ConnOutcome where
  dialNetwork : String
  dialCount : Nat
  fromCloseAttempted : Bool
  upstreamOpened : Bool
  bridged : Bool
  logged : List GoError

/-- Model of `tcpto6.handleConn ctx log from dstAddr`: dials `tcp6` to `dstAddr` once.
On dial failure it logs the dial error, closes the accepted connection
(logging a close failure too) and returns; on success it bridges the two
streams. `dial` models the network (outcome of `DialContext` per network and
address), `closeFromRes` the outcome of `from.Close()` on the failure path,
and the four bridge parameters the I/O outcomes inside `bridgeStreams`. -/
def handleConn (dial : String → String → Except GoError Unit) (dstAddr : String)
    (closeFromRes : Option GoError)
    (copyFT copyTF closeTo closeFrom : Option GoError) : ConnOutcome :=
  match dial tcp6Network dstAddr with
  | .error err =>
    { dialNetwork := tcp6Network, dialCount := 1
      fromCloseAttempted := true, upstreamOpened := false, bridged := false
      logged := err :: (match closeFromRes with | some e => [e] | none => []) }
  | .ok _ =>
    { dialNetwork := tcp6Network, dialCount := 1
      fromCloseAttempted := false, upstreamOpened := true, bridged := true
      logged := (bridgeStreams copyFT copyTF closeTo closeFrom).logged }

/-- The task `handleListener` dispatches for an accepted connection: it runs
`handleConn` (whose outcome it discards) and then returns nil
unconditionally. -/
def handlerTask (o : ConnOutcome) : Option GoError :=
  let _ := o
  none

/-- One turn of the accept loop: `Accept` either yields a connection
(identified by a number) or fails with an error. -/
inductive AcceptOutcome where
  | accepted (connId : Nat)
  | failed (err : GoError)

/-- Model of `tcpto6.handleListener group log toAddr l`: accepts in a loop over the
given trace of `Accept` outcomes. Yields `(none, ds)` when the trace is
exhausted with the loop still running (blocked in the next `Accept`), and
`(some r, ds)` when the loop returned `r`; `ds` lists the connections for
which a handler task was dispatched, in order. An `Accept` error matching
`net.ErrClosed` returns nil, any other error is wrapped and returned. -/
def handleListener : List AcceptOutcome → Option (Option GoError) × List Nat
  | [] => (none, [])
  | .accepted c :: rest =>
    let r := handleListener rest
    (r.1, c :: r.2)
  | .failed err :: _ =>
    if errorsIs err .netErrClosed then (some none, [])
    else (some (some (.wrapped "failed to accept new connection" err)), [])

/-- Name of the environment variable holding the destination address. -/
def ToAddrEnvName : String := "TCPV4TO6_DESTINATION_ADDR"

/-- Observable behaviour of `tcpto6.Run`: `returned` is `none` while `Run` is
still blocked (trace not finished) and `some r` once it returned `r`;
`listenersConsulted` records whether `activation.Listeners()` was called and
`acceptAttempted` whether the accept loop was entered. -/
structure RunOutcome where
  returned : Option (Option GoError)
  listenersConsulted : Bool
  acceptAttempted : Bool
  dispatched : List Nat

/-- Model of `tcpto6.Run ctx log`: looks up the destination env var (`env` is the
lookup result), fetches the systemd listeners (`listenersRes` is the call's
result, with the number of listeners on success), checks there is exactly
one, then runs a group with the `handleListener` task (over `trace`) and the
close-listener task (`closeErr` is the outcome of `listener.Close()`),
wrapping any group error. -/
def Run (env : Option String) (listenersRes : Except GoError Nat)
    (trace : List AcceptOutcome) (closeErr : Option GoError) : RunOutcome :=
  match env with
  | none =>
    { returned := some (some (.wrapped ToAddrEnvName .envMissing))
      listenersConsulted := false, acceptAttempted := false, dispatched := [] }
  | some _ =>
    match listenersRes with
    | .error err =>
      { returned := some (some (.wrapped "could not get systemd sockets" err))
        listenersConsulted := true, acceptAttempted := false, dispatched := [] }
    | .ok n =>
      if n ≠ 1 then
        { returned := some (some (.wrapped (toString n) .unexpectedSocketAmount))
          listenersConsulted := true, acceptAttempted := false, dispatched := [] }
      else
        let loop := handleListener trace
        match loop.1 with
        | none =>
          { returned := none, listenersConsulted := true
            acceptAttempted := true, dispatched := loop.2 }
        | some loopErr =>
          let wait := groupWait [loopErr, closeErr.map (.wrapped "could not close listener")]
          { returned := some (wait.map (.wrapped "listening group failed"))
            listenersConsulted := true, acceptAttempted := true, dispatched := loop.2 }

/-! ## Theorems -/

/-- Claim C1, counterexample. An `os.ErrClosed` copy outcome is a benign
closure condition by the claim's own definition, yet the top-level
`bridgeStreams` reports it to the logger: the claim that benign closure
conditions are never reported by `bridgeStreams` is false. -/
theorem bridgeStreams_logs_benign_osErrClosed :
    benignCopy (some .osErrClosed) = true ∧
    (bridgeStreams (some .osErrClosed) none none none).logged = [.osErrClosed] ∧
    (bridgeStreams (some .osErrClosed) none none none).logged ≠ [] := by
  refine ⟨rfl, rfl, ?_⟩
  have h : (bridgeStreams (some .osErrClosed) none none none).logged =
      [.osErrClosed] := rfl
  rw [h]
  exact List.cons_ne_nil _ _

/-- Claim C1, amended. A benign closure outcome of a copy direction is never
surfaced by the library path: `copyStream` returns nil for it, so
`BridgeStreams` treats it exactly like a clean EOF (it cannot appear in the
bridge's error set or result). The top-level `bridgeStreams`, however,
filters only the nil and `net.ErrClosed` outcomes from its logging — for
those its log is unchanged — while an `os.ErrClosed` copy error that does
not also match `net.ErrClosed` is logged. -/
theorem benign_copy_filtered (r : Option GoError) (h : benignCopy r = true) :
    copyStream r = none ∧
    (∀ cBA clA clB, BridgeStreams r cBA clA clB = BridgeStreams none cBA clA clB) ∧
    (∀ e, r = some e → errorsIs e .netErrClosed = true →
      ∀ cTF clT clF, (bridgeStreams r cTF clT clF).logged =
        (bridgeStreams none cTF clT clF).logged) := by
  have hcs : copyStream r = none := by
    cases r with
    | none => rfl
    | some e =>
      simp only [benignCopy] at h
      simp only [copyStream, h, if_true]
  refine ⟨hcs, ?_, ?_⟩
  · intro cBA clA clB
    have h0 : copyStream (none : Option GoError) = none := rfl
    simp only [BridgeStreams, bridgeTaskErrs, hcs, h0]
  · intro e her hnet cTF clT clF
    subst her
    simp only [bridgeStreams, copyTaskTop, hnet, Bool.not_true, Bool.false_eq_true,
      if_false]

/-- Claim C1 witness for the amended theorem at a concrete benign input. -/
theorem benign_copy_filtered_witness :
    benignCopy (some (.wrapped "read" .netErrClosed)) = true ∧
    copyStream (some (.wrapped "read" .netErrClosed)) = none ∧
    (bridgeStreams (some (.wrapped "read" .netErrClosed)) none none none).logged =
      (bridgeStreams none none none none).logged := by
  have h := benign_copy_filtered (some (.wrapped "read" .netErrClosed)) rfl
  exact ⟨rfl, h.1, h.2.2 _ rfl rfl none none none⟩

/-- Claim C2. Error-set joining: for the per-closer errors collected by
`closeAfterDone` and for the task errors joined by `BridgeStreams`, an empty
collected set yields nil, a singleton is returned directly and unmodified,
and two or more errors yield one descriptive error that carries all of them
with none dropped. -/
theorem errorSet_join_spec (crs : List (Option GoError))
    (cAB cBA clA clB : Option GoError) :
    (crs.filterMap id = [] → closeAfterDone crs = none) ∧
    (∀ e, crs.filterMap id = [e] → closeAfterDone crs = some e) ∧
    (∀ e₁ e₂ rest, crs.filterMap id = e₁ :: e₂ :: rest →
      closeAfterDone crs =
        some (.multi "multiple errors while closing closers" (e₁ :: e₂ :: rest))) ∧
    (bridgeTaskErrs cAB cBA clA clB = [] → BridgeStreams cAB cBA clA clB = none) ∧
    (∀ e, bridgeTaskErrs cAB cBA clA clB = [e] →
      BridgeStreams cAB cBA clA clB = some e) ∧
    (∀ e₁ e₂ rest, bridgeTaskErrs cAB cBA clA clB = e₁ :: e₂ :: rest →
      BridgeStreams cAB cBA clA clB =
        some (.multi "multiple errors while bridging streams" (e₁ :: e₂ :: rest))) := by
  refine ⟨?_, ?_, ?_, ?_, ?_, ?_⟩
  · intro h; simp only [closeAfterDone, h]
  · intro e h; simp only [closeAfterDone, h]
  · intro e₁ e₂ rest h; simp only [closeAfterDone, h]
  · intro h; simp only [BridgeStreams, h]
  · intro e h; simp only [BridgeStreams, h]
  · intro e₁ e₂ rest h; simp only [BridgeStreams, h]

/-- Claim C2 witness: a two-error close set is aggregated with both errors
kept, at a concrete input. -/
theorem errorSet_join_spec_witness :
    closeAfterDone [some (.other "a"), none, some (.other "b")] =
      some (.multi "multiple errors while closing closers"
        [.other "a", .other "b"]) :=
  (errorSet_join_spec [some (.other "a"), none, some (.other "b")]
    none none none none).2.2.1 (.other "a") (.other "b") [] rfl

/-- Claim C3. The accept loop over a trace of successful accepts ending in an
`Accept` error: a `net.ErrClosed` error terminates the loop with success
(nil); any other error terminates it with that error wrapped; and exactly one
handler task is dispatched per accepted connection, in order, before the
terminating accept. -/
theorem handleListener_accept_loop (conns : List Nat) (e : GoError) :
    (handleListener (conns.map .accepted ++ [.failed e])).2 = conns ∧
    (errorsIs e .netErrClosed = true →
      (handleListener (conns.map .accepted ++ [.failed e])).1 = some none) ∧
    (errorsIs e .netErrClosed = false →
      (handleListener (conns.map .accepted ++ [.failed e])).1 =
        some (some (.wrapped "failed to accept new connection" e))) := by
  induction conns with
  | nil => cases h : errorsIs e GoError.netErrClosed <;> simp [handleListener, h]
  | cons c rest ih =>
    cases h : errorsIs e GoError.netErrClosed <;> simp_all [handleListener, h]

/-- Claim C3 witness: two accepted connections then a closed listener. -/
theorem handleListener_accept_loop_witness :
    (handleListener ([7, 8].map .accepted ++ [.failed .netErrClosed])).2 = [7, 8] ∧
    (handleListener ([7, 8].map .accepted ++ [.failed .netErrClosed])).1 =
      some none := by
  have h := handleListener_accept_loop [7, 8] .netErrClosed
  exact ⟨h.1, h.2.1 rfl⟩

/-- Each copy task of the top-level bridge returns nil whatever `io.Copy`
did. -/
theorem copyTaskTop_fst (r : Option GoError) : (copyTaskTop r).1 = none := by
  cases r with
  | none => rfl
  | some e =>
    simp only [copyTaskTop]
    split <;> rfl

/-- Each close task of the top-level bridge returns nil whatever `Close()`
did. -/
theorem closeTaskTop_fst (r : Option GoError) : (closeTaskTop r).1 = none := by
  cases r with
  | none => rfl
  | some e =>
    simp only [closeTaskTop]
    split <;> rfl

/-- Claim C4. Every one of the four tasks the top-level `bridgeStreams` spawns
returns nil on every execution path, so the group's aggregated result is
always empty and the defensive `panic("did not expect errors")` branch is
unreachable; the library-level `BridgeStreams` instead returns the aggregated
error (for an unexpected copy error, the wrapped copy error). -/
theorem bridgeStreams_panic_unreachable (cFT cTF clT clF : Option GoError) :
    bridgeStreamsTaskResults cFT cTF clT clF = [none, none, none, none] ∧
    (bridgeStreams cFT cTF clT clF).panicked = false ∧
    (∀ e, errorsIs e .osErrClosed = false → errorsIs e .netErrClosed = false →
      BridgeStreams (some e) none none none =
        some (.wrapped "io.Copy failed" e)) := by
  refine ⟨?_, ?_, ?_⟩
  · simp only [bridgeStreamsTaskResults, copyTaskTop_fst, closeTaskTop_fst]
  · simp only [bridgeStreams, copyTaskTop_fst, closeTaskTop_fst]
    rfl
  · intro e h1 h2
    simp [BridgeStreams, bridgeTaskErrs, copyStream, closeAfterDone, h1, h2]

/-- Claim C4 witness: with an unexpected copy error the top-level bridge does
not panic while the library bridge returns the wrapped error. -/
theorem bridgeStreams_panic_unreachable_witness :
    (bridgeStreams (some (.other "boom")) none none none).panicked = false ∧
    BridgeStreams (some (.other "boom")) none none none =
      some (.wrapped "io.Copy failed" (.other "boom")) := by
  have h := bridgeStreams_panic_unreachable (some (.other "boom")) none none none
  exact ⟨h.2.1, h.2.2 (.other "boom") rfl rfl⟩

/-- Claim C5, counterexample. An execution reaching Stopped in which the
accept loop returned nil (the listener was closed as expected) but
`listener.Close()` failed: `Run` returns a non-nil error, so `Run` does not
return nil exactly when the accept loop returned nil. -/
theorem run_result_counterexample :
    (handleListener [.failed .netErrClosed]).1 = some none ∧
    (Run (some "addr") (.ok 1) [.failed .netErrClosed]
        (some (.other "close failed"))).returned =
      some (some (.wrapped "listening group failed"
        (.wrapped "could not close listener" (.other "close failed")))) ∧
    (Run (some "addr") (.ok 1) [.failed .netErrClosed]
        (some (.other "close failed"))).returned ≠ some none := by
  refine ⟨rfl, rfl, ?_⟩
  have h : (Run (some "addr") (.ok 1) [.failed .netErrClosed]
      (some (.other "close failed"))).returned =
      some (some (.wrapped "listening group failed"
        (.wrapped "could not close listener" (.other "close failed")))) := rfl
  rw [h]
  simp

/-- Claim C5, amended. For every execution reaching Stopped (the accept trace
terminates the loop), `Run` returns nil exactly when both the accept loop and
the listener-closing task returned nil; any task error — a fatal accept error
or a listener-close error — is aggregated and returned wrapped as the
service's result. -/
theorem run_result_amended (addr : String) (trace : List AcceptOutcome)
    (closeErr loopErr : Option GoError)
    (h : (handleListener trace).1 = some loopErr) :
    (Run (some addr) (.ok 1) trace closeErr).returned = some none ↔
      loopErr = none ∧ closeErr = none := by
  cases loopErr <;> cases closeErr <;> simp [Run, h, groupWait]

/-- Claim C5 witness for the amended theorem: clean shutdown (listener closed,
close succeeded) yields a nil service result. -/
theorem run_result_amended_witness :
    (Run (some "addr") (.ok 1) [.failed .netErrClosed] none).returned =
      some none :=
  (run_result_amended "addr" [.failed .netErrClosed] none none rfl).mpr ⟨rfl, rfl⟩

/-- Claim C6. Run fails fast before any accept is attempted when the
destination env var is unset or when the number of provisioned sockets is not
exactly one (zero and several alike), returning the respective configuration
error; with the env var set and exactly one socket, startup proceeds to the
accept loop. -/
theorem run_config_validation (addr : String) (trace : List AcceptOutcome)
    (closeErr : Option GoError) (n : Nat) (lres : Except GoError Nat) :
    ((Run none lres trace closeErr).returned =
        some (some (.wrapped ToAddrEnvName .envMissing)) ∧
      (Run none lres trace closeErr).acceptAttempted = false) ∧
    (n ≠ 1 →
      (Run (some addr) (.ok n) trace closeErr).returned =
        some (some (.wrapped (toString n) .unexpectedSocketAmount)) ∧
      (Run (some addr) (.ok n) trace closeErr).acceptAttempted = false) ∧
    (Run (some addr) (.ok 1) trace closeErr).acceptAttempted = true := by
  refine ⟨⟨rfl, rfl⟩, ?_, ?_⟩
  · intro hn
    simp [Run, hn]
  · cases h : (handleListener trace).1 <;> simp [Run, h]

/-- Claim C6 witness: zero provisioned sockets fail fast with no accept. -/
theorem run_config_validation_witness :
    (Run (some "addr") (.ok 0) [] none).returned =
      some (some (.wrapped (toString 0) .unexpectedSocketAmount)) ∧
    (Run (some "addr") (.ok 0) [] none).acceptAttempted = false := by
  have h := run_config_validation "addr" [] none 0 (.ok 0)
  exact h.2.1 (by decide)

/-- Claim C7. For every accepted connection the handler dials exactly once; on
dial failure it closes the accepted connection, logs the dial error and
returns without opening or bridging an upstream connection; and the task
dispatched into the accept loop's group returns nil on every path, so one
failed connection cannot terminate the service. -/
theorem handleConn_isolation (dial : String → String → Except GoError Unit)
    (dst : String) (closeRes : Option GoError)
    (cFT cTF clT clF : Option GoError) :
    (handleConn dial dst closeRes cFT cTF clT clF).dialCount = 1 ∧
    (∀ e, dial tcp6Network dst = .error e →
      (handleConn dial dst closeRes cFT cTF clT clF).fromCloseAttempted = true ∧
      e ∈ (handleConn dial dst closeRes cFT cTF clT clF).logged ∧
      (handleConn dial dst closeRes cFT cTF clT clF).upstreamOpened = false ∧
      (handleConn dial dst closeRes cFT cTF clT clF).bridged = false) ∧
    handlerTask (handleConn dial dst closeRes cFT cTF clT clF) = none := by
  refine ⟨?_, ?_, rfl⟩
  · cases h : dial tcp6Network dst <;> simp [handleConn, h]
  · intro e h
    simp [handleConn, h]

/-- Claim C7 witness: a refused dial closes the accepted connection, logs the
error and opens no upstream. -/
theorem handleConn_isolation_witness :
    (handleConn (fun _ _ => .error (.other "refused")) "host:1" none
      none none none none).fromCloseAttempted = true ∧
    GoError.other "refused" ∈ (handleConn (fun _ _ => .error (.other "refused"))
      "host:1" none none none none none).logged ∧
    (handleConn (fun _ _ => .error (.other "refused")) "host:1" none
      none none none none).upstreamOpened = false := by
  have h := handleConn_isolation (fun _ _ => .error (.other "refused"))
    "host:1" none none none none none
  have h2 := h.2.1 (.other "refused") rfl
  exact ⟨h2.1, h2.2.1, h2.2.2.1⟩

/-- Claim C9. The upstream dial is always made on the `tcp6` network, whatever
the destination address string; hence when the destination refuses `tcp6`
dials (reachable only over IPv4) the dial fails and the handler closes the
accepted connection without bridging. -/
theorem handleConn_dials_tcp6 (dial : String → String → Except GoError Unit)
    (dst : String) (closeRes : Option GoError)
    (cFT cTF clT clF : Option GoError) :
    (handleConn dial dst closeRes cFT cTF clT clF).dialNetwork = "tcp6" ∧
    (∀ e, dial "tcp6" dst = .error e →
      (handleConn dial dst closeRes cFT cTF clT clF).fromCloseAttempted = true ∧
      (handleConn dial dst closeRes cFT cTF clT clF).bridged = false) := by
  constructor
  · cases h : dial tcp6Network dst <;>
      · simp only [tcp6Network] at h
        simp [handleConn, h, tcp6Network]
  · intro e h
    simp [handleConn, h, tcp6Network]

/-- Claim C9 witness: a destination rejecting every `tcp6` dial gets its
accepted connection closed, and the recorded network is `tcp6`. -/
theorem handleConn_dials_tcp6_witness :
    (handleConn (fun net _ => if net == "tcp6" then .error (.other "unreachable")
        else .ok ()) "203.0.113.7:80" none none none none none).dialNetwork =
      "tcp6" ∧
    (handleConn (fun net _ => if net == "tcp6" then .error (.other "unreachable")
        else .ok ()) "203.0.113.7:80" none none none none
        none).fromCloseAttempted = true := by
  have h := handleConn_dials_tcp6
    (fun net _ => if net == "tcp6" then .error (.other "unreachable") else .ok ())
    "203.0.113.7:80" none none none none none
  exact ⟨h.1, (h.2 (.other "unreachable") rfl).1⟩

/-- Claim C10. The destination env var is validated before the
socket-provisioning collaborator is consulted: with the env var unset and a
wrong socket count, the returned error is the missing-env-var configuration
error and `activation.Listeners()` is never called. -/
theorem run_env_checked_first (n : Nat) (_hn : n ≠ 1)
    (trace : List AcceptOutcome) (closeErr : Option GoError) :
    (Run none (.ok n) trace closeErr).returned =
      some (some (.wrapped ToAddrEnvName .envMissing)) ∧
    (Run none (.ok n) trace closeErr).listenersConsulted = false :=
  ⟨rfl, rfl⟩

/-- Claim C10 witness: unset env var with zero sockets yields the
missing-env-var error without consulting the provisioning step. -/
theorem run_env_checked_first_witness :
    (Run none (.ok 0) [] none).returned =
      some (some (.wrapped ToAddrEnvName .envMissing)) ∧
    (Run none (.ok 0) [] none).listenersConsulted = false :=
  run_env_checked_first 0 (by decide) [] none

end Tcp4to6
